/-
Verification of the core data transformations of the Starbucks store
dashboard (`Final_Project.py`): data preparation (coordinate coercion and
density classification), the filter engine, and the aggregation functions
(top-city ranking, ownership-type distribution, city × ownership pivot,
year × ownership counts).

The pandas operations are shallowly embedded over `List`:
a data frame is a list of records, `value_counts` pairs the distinct
values of a column with their occurrence counts and sorts by count
descending, `isin`-filtering is membership filtering, and pivot/groupby
grids are nested maps over the distinct key lists.  All definitions are
executable.  One caveat: pandas specifies its descending count sorts only
up to the order of tied counts (`sort_values`' default `kind='quicksort'`
is documented as not stable, and `value_counts` does not document a tie
order), while an executable embedding must pick some concrete order; the
embedding picks the stable first-seen resolution, and no theorem below
relies on that choice — properties of the tie order are stated against
the contract predicate `isDescendingSortOf`, which captures exactly what
the library guarantees.
-/
import Mathlib

open List

namespace Starbucks

/-! ### Character-level parsing utilities -/

/-- Ordering on strings as lists of characters by code point, used only to
model pandas sorting the index/columns of a pivot table or groupby result
in ascending order. -/
def charListLEb : List Char → List Char → Bool
  | [], _ => true
  | _ :: _, [] => false
  | a :: as, b :: bs =>
    if a.toNat < b.toNat then true
    else if b.toNat < a.toNat then false
    else charListLEb as bs

/-- Ascending code-point order on strings. -/
def strLE (a b : String) : Prop := charListLEb a.toList b.toList = true

instance : DecidableRel strLE :=
  fun a b => inferInstanceAs (Decidable (charListLEb a.toList b.toList = true))

/-- Models Python `str.split(sep)` for a one-character separator:
`"".split(sep) == [""]`, adjacent separators produce empty segments. -/
def splitOnChar (sep : Char) : List Char → List (List Char)
  | [] => [[]]
  | c :: cs =>
    match splitOnChar sep cs with
    | [] => if c = sep then [[], []] else [[c]]
    | g :: gs => if c = sep then [] :: g :: gs else (c :: g) :: gs

/-- Strips leading and trailing whitespace, as Python `int(...)`/`float(...)`
do before parsing. -/
def trimList (cs : List Char) : List Char :=
  ((cs.dropWhile Char.isWhitespace).reverse.dropWhile Char.isWhitespace).reverse

/-- Value of a list of decimal digit characters. -/
def digitsToNat (cs : List Char) : Nat :=
  cs.foldl (fun acc c => 10 * acc + (c.toNat - 48)) 0

/-- Parses a nonempty all-digit character list, otherwise fails. -/
def parseNatDigits (cs : List Char) : Option Nat :=
  if cs.isEmpty then none
  else if cs.all Char.isDigit then some (digitsToNat cs) else none

/-- Models Python `int(str)`: optional surrounding whitespace, optional
sign, then a nonempty run of decimal digits; anything else raises, which
the embedding renders as `none`. -/
def parsePyInt (cs : List Char) : Option Int :=
  match trimList cs with
  | [] => none
  | c :: rest =>
    if c = '+' then (parseNatDigits rest).map (fun n => (n : Int))
    else if c = '-' then (parseNatDigits rest).map (fun n => -(n : Int))
    else (parseNatDigits (c :: rest)).map (fun n => (n : Int))

/-- Final `'-'`-separated segment of a store identifier,
Python `x.split('-')[-1]`. -/
def lastSegment (s : String) : List Char :=
  (splitOnChar '-' s.toList).getLastD []

/-- Source line 35, the `Density Category` lambda:
`'High Density' if int(x.split('-')[-1]) > 1000 else 'Low Density'`.
A final segment that `int` cannot parse raises in the source; the
embedding renders that failure as `none`. -/
def densityCategory (storeNumber : String) : Option String :=
  (parsePyInt (lastSegment storeNumber)).map
    (fun n => if n > 1000 then "High Density" else "Low Density")

/-- Unsigned decimal literal: digits, optionally with one decimal point
(at least one digit overall). -/
def parseUnsignedDecimal (cs : List Char) : Option Rat :=
  match splitOnChar '.' cs with
  | [ipart] => (parseNatDigits ipart).map (fun n => (n : Rat))
  | [ipart, fpart] =>
    if ipart.all Char.isDigit ∧ fpart.all Char.isDigit ∧ ipart.length + fpart.length ≠ 0 then
      some ((digitsToNat ipart : Rat) + (digitsToNat fpart : Rat) / ((10 : Rat) ^ fpart.length))
    else none
  | _ => none

/-- Models `pd.to_numeric(col, errors='coerce')` on one value
(source lines 31-32): a parseable signed decimal becomes its numeric
value, anything else is coerced to missing (`none`), never an error. -/
def to_numeric (s : String) : Option Rat :=
  match trimList s.toList with
  | [] => none
  | c :: rest =>
    if c = '+' then parseUnsignedDecimal rest
    else if c = '-' then (parseUnsignedDecimal rest).map (fun q => -q)
    else parseUnsignedDecimal (c :: rest)

/-! ### The data model -/

/-- A raw CSV record, all fields as read from the file
(`Latitude`/`Longitude` still strings). -/
structure RawRow where
  storeNumber : String
  latitude : String
  longitude : String
  countryCode : String
  city : String
  ownershipType : String
  firstSeen : String
  storeName : String
deriving DecidableEq

/-- A store record after the coordinate columns have been renamed to
`lat`/`lon` (source line 30) and coerced to numeric (lines 31-32);
unparseable coordinates are missing. -/
structure Row where
  storeNumber : String
  lat : Option Rat
  lon : Option Rat
  countryCode : String
  city : String
  ownershipType : String
  firstSeen : String
  storeName : String
deriving DecidableEq

/-- Coordinate coercion of a single record (source lines 30-32). -/
def coerceCoordinates (r : RawRow) : Row :=
  { storeNumber := r.storeNumber
    lat := to_numeric r.latitude
    lon := to_numeric r.longitude
    countryCode := r.countryCode
    city := r.city
    ownershipType := r.ownershipType
    firstSeen := r.firstSeen
    storeName := r.storeName }

/-- Column-wise coordinate coercion of the whole loaded table
(source lines 30-32). -/
def coerceCoordinateColumns (raws : List RawRow) : List Row :=
  raws.map coerceCoordinates

/-! ### The filter engine -/

/-- Source lines 23-24: `filter_data(data, column, values)` returns
`data[data[column].isin(values)]`. -/
def filter_data (data : List Row) (column : Row → String) (values : List String) : List Row :=
  data.filter (fun r => decide (column r ∈ values))

/-- Source lines 40 and 49-50: filter by the single selected country code,
then, only when the city multi-select is nonempty, by the chosen cities. -/
def filtered_data (df : List Row) (selectedCountry : String)
    (selectedCities : List String) : List Row :=
  let byCountry := filter_data df (fun r => r.countryCode) [selectedCountry]
  if selectedCities.isEmpty then byCountry
  else filter_data byCountry (fun r => r.city) selectedCities

/-! ### Aggregation functions -/

/-- Distinct values of a column in order of first occurrence. -/
def firstSeenKeys {β : Type} [DecidableEq β] : List β → List β
  | [] => []
  | x :: xs => x :: (firstSeenKeys xs).filter (fun y => decide (y ≠ x))

/-- Number of occurrences of `v` in `l`. -/
def countOccur {β : Type} [DecidableEq β] (l : List β) (v : β) : Nat :=
  (l.filter (fun x => decide (x = v))).length

/-- Descending-count order on `(value, count)` pairs: the order by which
`value_counts` results and line 170's
`sort_values(by='Number of Stores', ascending=False)` are sorted. -/
def countGE (a b : String × Nat) : Prop := b.2 ≤ a.2

instance : DecidableRel countGE := fun a b => inferInstanceAs (Decidable (b.2 ≤ a.2))

instance : IsTotal (String × Nat) countGE := ⟨fun a b => Nat.le_total b.2 a.2⟩

instance : IsTrans (String × Nat) countGE := ⟨fun _ _ _ h1 h2 => Nat.le_trans h2 h1⟩

/-- Everything pandas specifies about its descending count sorts
(`Series.value_counts()`'s result order, and `sort_values` on the count
column with `ascending=False` and the default `kind='quicksort'`, which
the pandas documentation marks as not stable): the output is some
reordering of the input rows that is sorted by count descending.  The
relative order of tied counts is left unspecified by the library. -/
def isDescendingSortOf (out inp : List (String × Nat)) : Prop :=
  inp.Perm out ∧ out.Pairwise countGE

/-- Models `Series.value_counts()`: one `(value, count)` pair per distinct
value, in descending count order.  pandas leaves the order of tied counts
unspecified; an executable embedding must pick some concrete order, and
this one resolves ties to first-seen order via a stable sort.  No theorem
below depends on this resolution: only membership, counts, lengths and
cell sums of `value_counts` are used, never the tie order. -/
def value_counts (l : List String) : List (String × Nat) :=
  List.insertionSort countGE ((firstSeenKeys l).map (fun v => (v, countOccur l v)))

/-- Models `Series.nlargest(n)`: `n` entries with the largest counts,
sorted descending.  Its documented `keep='first'` resolves ties by
position in the series — which is `value_counts`' unspecified order — so
the boundary tie-break is again unspecified; the embedding resolves it
through the same explicitly chosen stable sort as `value_counts`. -/
def nlargest (n : Nat) (l : List (String × Nat)) : List (String × Nat) :=
  (List.insertionSort countGE l).take n

/-- Source lines 168-169: `filtered_data['City'].value_counts()` turned
into a `(City, Number of Stores)` table. -/
def city_counts (data : List Row) : List (String × Nat) :=
  value_counts (data.map (fun r => r.city))

/-- Source line 150: `filtered_data['City'].value_counts().nlargest(10)`,
the data behind the Top Cities bar chart. -/
def city_counts_chart (data : List Row) : List (String × Nat) :=
  nlargest 10 (city_counts data)

/-- Source lines 170-171: re-sort the city-count table by count
descending and keep the first 10 rows (`sort_values` with the default,
documented-unstable `kind='quicksort'`, then `iloc[:10]`), the Top Cities
table.  As with `value_counts`, the tie order realized here is the
embedding's explicitly chosen resolution of an order the library leaves
unspecified, and no theorem below depends on it. -/
def top_cities (data : List Row) : List (String × Nat) :=
  (List.insertionSort countGE (city_counts data)).take 10

/-- Per-ownership-type row counts, `Series.value_counts()` on the
`OwnershipType` column. -/
def ownership_counts (data : List Row) : List (String × Nat) :=
  value_counts (data.map (fun r => r.ownershipType))

/-- Source line 181: the pie chart counts,
`filtered_data['OwnershipType'].value_counts()`. -/
def ownership_counts_pie (df : List Row) (selectedCountry : String)
    (selectedCities : List String) : List (String × Nat) :=
  ownership_counts (filtered_data df selectedCountry selectedCities)

/-- Source line 189: the seaborn bar chart counts,
`df_starbucks['OwnershipType'].value_counts()` — computed over the full
loaded table, not the filtered one. -/
def ownership_counts_bar (df : List Row) : List (String × Nat) :=
  ownership_counts df

/-- Source line 80: `pd.pivot_table(filtered_data, values='StoreNumber',
index=['City'], columns='OwnershipType', aggfunc='count', fill_value=0)`.
One row per distinct city, one column per distinct ownership type (both
sorted ascending, as pandas does), each cell the number of records with
that city and ownership type, absent combinations 0. -/
def pivot_table (data : List Row) : List (String × List (String × Nat)) :=
  (List.insertionSort strLE (firstSeenKeys (data.map (fun r => r.city)))).map (fun c =>
    (c, (List.insertionSort strLE (firstSeenKeys (data.map (fun r => r.ownershipType)))).map
      (fun t =>
        (t, (data.filter (fun r => decide (r.city = c ∧ r.ownershipType = t))).length))))

/-- Sum of all cells of the city × ownership-type pivot. -/
def pivotCellSum (data : List Row) : Nat :=
  ((pivot_table data).map (fun row => (row.2.map (fun cell => cell.2)).sum)).sum

/-- Source line 225: the year of
`pd.to_datetime(FirstSeen, format='%m/%d/%Y %I:%M:%S %p')`.
A timestamp not of the shape `m/d/y h:m:s AM|PM` (all fields numeric)
raises in the source; the embedding renders that as `none`. -/
def extractYear (s : String) : Option Nat :=
  match splitOnChar ' ' s.toList with
  | [datePart, timePart, meridiem] =>
    match splitOnChar '/' datePart, splitOnChar ':' timePart with
    | [m, d, y], [hh, mi, ss] =>
      if (m ++ d ++ y ++ hh ++ mi ++ ss).all Char.isDigit ∧
          m ≠ [] ∧ d ≠ [] ∧ y ≠ [] ∧ hh ≠ [] ∧ mi ≠ [] ∧ ss ≠ [] ∧
          (meridiem = "AM".toList ∨ meridiem = "PM".toList) then
        some (digitsToNat y)
      else none
    | _, _ => none
  | _ => none

/-- Ascending order on group-key years (a missing year sorts first). -/
def yearLE (a b : Option Nat) : Prop := a.getD 0 ≤ b.getD 0

instance : DecidableRel yearLE := fun a b => inferInstanceAs (Decidable (a.getD 0 ≤ b.getD 0))

/-- Source lines 225-228:
`df_starbucks.groupby(['Year', 'OwnershipType']).size().unstack(fill_value=0)`.
One row per distinct year, one column per distinct ownership type, each
cell the number of records with that year and ownership type, absent
combinations 0.  Note the source computes this over the full
`df_starbucks`, not over `filtered_data`. -/
def store_counts_by_year (data : List Row) : List (Option Nat × List (String × Nat)) :=
  (List.insertionSort yearLE
      (firstSeenKeys (data.map (fun r => extractYear r.firstSeen)))).map (fun y =>
    (y, (List.insertionSort strLE (firstSeenKeys (data.map (fun r => r.ownershipType)))).map
      (fun t =>
        (t, (data.filter
          (fun r => decide (extractYear r.firstSeen = y ∧ r.ownershipType = t))).length))))

/-- Sum of all cells of the year × ownership-type count grid. -/
def yearCellSum (data : List Row) : Nat :=
  ((store_counts_by_year data).map (fun row => (row.2.map (fun cell => cell.2)).sum)).sum

/-! ### Sample tables used by witnesses and counterexamples -/

/-- Builds a store record with missing coordinates, for concrete test
tables. -/
def mkRow (storeNumber countryCode city ownershipType firstSeen : String) : Row :=
  { storeNumber := storeNumber
    lat := none
    lon := none
    countryCode := countryCode
    city := city
    ownershipType := ownershipType
    firstSeen := firstSeen
    storeName := "Starbucks" }

/-- Two records in different countries, so that country filtering keeps a
proper subset. -/
def sampleTwoCountries : List Row :=
  [mkRow "SB-001-1500" "US" "New York" "CO" "04/13/2017 12:29:00 AM",
   mkRow "SB-002-0900" "MX" "Mexico City" "LS" "06/02/2018 10:05:00 PM"]

/-- Two records in the same country, so that country filtering keeps
everything. -/
def sampleOneCountry : List Row :=
  [mkRow "SB-003-0100" "US" "New York" "CO" "04/13/2017 12:29:00 AM",
   mkRow "SB-004-0200" "US" "Boston" "LS" "06/02/2018 10:05:00 PM"]

/-- Two records in two distinct cities, A first-encountered before B,
each city with one store — the smallest table with a tied city count. -/
def sampleTiedCities : List Row :=
  [mkRow "SB-1" "US" "A" "CO" "04/13/2017 12:29:00 AM",
   mkRow "SB-2" "US" "B" "CO" "04/13/2017 12:29:00 AM"]

/-- One raw record with parseable coordinates and one whose coordinates
cannot be parsed. -/
def sampleRawRows : List RawRow :=
  [{ storeNumber := "SB-001-1500", latitude := "39.5", longitude := "-2.25",
     countryCode := "US", city := "New York", ownershipType := "CO",
     firstSeen := "04/13/2017 12:29:00 AM", storeName := "Starbucks" },
   { storeNumber := "SB-002-0900", latitude := "abc", longitude := "",
     countryCode := "MX", city := "Mexico City", ownershipType := "LS",
     firstSeen := "06/02/2018 10:05:00 PM", storeName := "Starbucks" }]

/-! ### Helper lemmas about first-seen keys, counting sums and stability -/

/-- Membership in the first-seen distinct keys is membership in the
column. -/
lemma mem_firstSeenKeys {β : Type} [DecidableEq β] {a : β} :
    ∀ {l : List β}, a ∈ firstSeenKeys l ↔ a ∈ l := by
  intro l
  induction l with
  | nil => simp [firstSeenKeys]
  | cons x xs ih =>
    simp only [firstSeenKeys, List.mem_cons, List.mem_filter]
    constructor
    · rintro (rfl | ⟨hmem, _⟩)
      · exact Or.inl rfl
      · exact Or.inr (ih.mp hmem)
    · rintro (rfl | hmem)
      · exact Or.inl rfl
      · by_cases hax : a = x
        · exact Or.inl hax
        · exact Or.inr ⟨ih.mpr hmem, by simp [hax]⟩

/-- The first-seen distinct keys contain no duplicates. -/
lemma nodup_firstSeenKeys {β : Type} [DecidableEq β] :
    ∀ (l : List β), (firstSeenKeys l).Nodup := by
  intro l
  induction l with
  | nil => simp [firstSeenKeys]
  | cons x xs ih =>
    simp only [firstSeenKeys]
    rw [List.nodup_cons]
    refine ⟨?_, ih.filter _⟩
    intro hmem
    rcases List.mem_filter.mp hmem with ⟨_, hne⟩
    simp at hne

/-- Sums of pointwise sums of mapped `Nat` lists split. -/
lemma sum_map_add_distrib {α : Type} (l : List α) (f g : α → Nat) :
    (l.map (fun x => f x + g x)).sum = (l.map f).sum + (l.map g).sum := by
  induction l with
  | nil => rfl
  | cons a t ih =>
    simp only [List.map_cons, List.sum_cons, ih]
    omega

/-- Over duplicate-free keys containing `b`, the indicator of `b` sums to
one. -/
lemma sum_indicator {β : Type} [DecidableEq β] (b : β) :
    ∀ (ks : List β), ks.Nodup → b ∈ ks →
      (ks.map (fun k => if b = k then 1 else 0)).sum = 1 := by
  intro ks
  induction ks with
  | nil => intro _ h; cases h
  | cons k t ih =>
    intro hnd hmem
    rcases List.nodup_cons.mp hnd with ⟨hk, hndt⟩
    by_cases h : b = k
    · subst h
      have hz : (t.map (fun x => if b = x then 1 else 0)).sum = 0 := by
        apply List.sum_eq_zero
        intro x hx
        rcases List.mem_map.mp hx with ⟨y, hy, rfl⟩
        have hby : b ≠ y := fun hby => hk (hby ▸ hy)
        simp [hby]
      simp [hz]
    · have hmem2 : b ∈ t := by
        rcases List.mem_cons.mp hmem with h2 | h2
        · exact absurd h2 h
        · exact h2
      simp [h, ih hndt hmem2]

/-- Partitioning a list by a key function over duplicate-free covering
keys: the per-key filtered lengths sum to the total length. -/
lemma sum_filter_length {α β : Type} [DecidableEq β] (key : α → β) (ks : List β)
    (hnd : ks.Nodup) :
    ∀ (data : List α), (∀ r ∈ data, key r ∈ ks) →
      (ks.map (fun k => (data.filter (fun r => decide (key r = k))).length)).sum
        = data.length := by
  intro data
  induction data with
  | nil => intro _; simp
  | cons a t ih =>
    intro hc
    have hsplit : ∀ k : β, (List.filter (fun r => decide (key r = k)) (a :: t)).length
        = (if key a = k then 1 else 0) + (List.filter (fun r => decide (key r = k)) t).length := by
      intro k
      by_cases h : key a = k
      · simp [List.filter_cons, h, Nat.add_comm]
      · simp [List.filter_cons, h]
    simp only [hsplit]
    rw [sum_map_add_distrib, sum_indicator (key a) ks hnd (hc a (List.mem_cons_self a t)),
      ih (fun r hr => hc r (List.mem_cons_of_mem a hr))]
    simp [List.length_cons]
    omega

/-- Double partitioning by two key functions: the cells of the grid sum to
the total length. -/
lemma sum_filter_two_keys {α β γ : Type} [DecidableEq β] [DecidableEq γ]
    (key1 : α → β) (key2 : α → γ) (ks1 : List β) (ks2 : List γ) (data : List α)
    (h1 : ks1.Nodup) (h2 : ks2.Nodup)
    (c1 : ∀ r ∈ data, key1 r ∈ ks1) (c2 : ∀ r ∈ data, key2 r ∈ ks2) :
    (ks1.map (fun a => (ks2.map (fun b =>
      (data.filter (fun r => decide (key1 r = a ∧ key2 r = b))).length)).sum)).sum
      = data.length := by
  have hcell : ∀ (a : β) (b : γ),
      (data.filter (fun r => decide (key1 r = a ∧ key2 r = b))).length
        = ((data.filter (fun r => decide (key1 r = a))).filter
            (fun r => decide (key2 r = b))).length := by
    intro a b
    rw [List.filter_filter]
    apply congrArg List.length
    apply List.filter_congr
    intro r _
    rw [Bool.decide_and, Bool.and_comm]
  have hinner : ∀ a : β,
      (ks2.map (fun b =>
        (data.filter (fun r => decide (key1 r = a ∧ key2 r = b))).length)).sum
        = (data.filter (fun r => decide (key1 r = a))).length := by
    intro a
    simp only [hcell]
    exact sum_filter_length key2 ks2 h2 _ (fun r hr => c2 r (List.mem_of_mem_filter hr))
  simp only [hinner]
  exact sum_filter_length key1 ks1 h1 data c1

/-- Every entry of `value_counts` pairs a column value with its occurrence
count. -/
lemma mem_value_counts {l : List String} {p : String × Nat} (h : p ∈ value_counts l) :
    p.1 ∈ l ∧ p.2 = countOccur l p.1 := by
  unfold value_counts at h
  rcases List.mem_map.mp ((List.mem_insertionSort countGE).mp h) with ⟨v, hv, rfl⟩
  exact ⟨mem_firstSeenKeys.mp hv, rfl⟩

/-- The city × ownership-type pivot cells sum to the number of input
records. -/
lemma pivotCellSum_eq_length (data : List Row) : pivotCellSum data = data.length := by
  unfold pivotCellSum pivot_table
  rw [List.map_map]
  simp only [Function.comp_def, List.map_map]
  have hnd1 : (List.insertionSort strLE (firstSeenKeys (data.map (fun r => r.city)))).Nodup :=
    ((List.perm_insertionSort strLE _).nodup_iff).mpr (nodup_firstSeenKeys _)
  have hnd2 :
      (List.insertionSort strLE (firstSeenKeys (data.map (fun r => r.ownershipType)))).Nodup :=
    ((List.perm_insertionSort strLE _).nodup_iff).mpr (nodup_firstSeenKeys _)
  have c1 : ∀ r ∈ data,
      r.city ∈ List.insertionSort strLE (firstSeenKeys (data.map (fun r => r.city))) := by
    intro r hr
    exact (List.mem_insertionSort strLE).mpr
      (mem_firstSeenKeys.mpr (List.mem_map_of_mem _ hr))
  have c2 : ∀ r ∈ data, r.ownershipType
      ∈ List.insertionSort strLE (firstSeenKeys (data.map (fun r => r.ownershipType))) := by
    intro r hr
    exact (List.mem_insertionSort strLE).mpr
      (mem_firstSeenKeys.mpr (List.mem_map_of_mem _ hr))
  exact sum_filter_two_keys (fun r => r.city) (fun r => r.ownershipType) _ _ data
    hnd1 hnd2 c1 c2

/-- The year × ownership-type cells sum to the number of input records. -/
lemma yearCellSum_eq_length (data : List Row) : yearCellSum data = data.length := by
  unfold yearCellSum store_counts_by_year
  rw [List.map_map]
  simp only [Function.comp_def, List.map_map]
  have hnd1 : (List.insertionSort yearLE
      (firstSeenKeys (data.map (fun r => extractYear r.firstSeen)))).Nodup :=
    ((List.perm_insertionSort yearLE _).nodup_iff).mpr (nodup_firstSeenKeys _)
  have hnd2 :
      (List.insertionSort strLE (firstSeenKeys (data.map (fun r => r.ownershipType)))).Nodup :=
    ((List.perm_insertionSort strLE _).nodup_iff).mpr (nodup_firstSeenKeys _)
  have c1 : ∀ r ∈ data, extractYear r.firstSeen
      ∈ List.insertionSort yearLE (firstSeenKeys (data.map (fun r => extractYear r.firstSeen))) := by
    intro r hr
    exact (List.mem_insertionSort yearLE).mpr
      (mem_firstSeenKeys.mpr (List.mem_map_of_mem _ hr))
  have c2 : ∀ r ∈ data, r.ownershipType
      ∈ List.insertionSort strLE (firstSeenKeys (data.map (fun r => r.ownershipType))) := by
    intro r hr
    exact (List.mem_insertionSort strLE).mpr
      (mem_firstSeenKeys.mpr (List.mem_map_of_mem _ hr))
  exact sum_filter_two_keys (fun r => extractYear r.firstSeen) (fun r => r.ownershipType) _ _ data
    hnd1 hnd2 c1 c2

/-! ### Claim theorems -/

/-- C1: for every store record whose identifier has an integer-parseable
final `'-'`-separated segment, the density classification returns
High Density iff that integer is strictly greater than 1000, and
Low Density iff it is at most 1000 (so a suffix of exactly 1000 is
Low Density). -/
theorem densityCategory_threshold (s : String) (n : Int)
    (h : parsePyInt (lastSegment s) = some n) :
    (densityCategory s = some "High Density" ↔ 1000 < n) ∧
    (densityCategory s = some "Low Density" ↔ n ≤ 1000) := by
  have hd : densityCategory s = some (if n > 1000 then "High Density" else "Low Density") := by
    simp [densityCategory, h]
  by_cases hn : (1000 : Int) < n
  · have hn2 : ¬ n ≤ 1000 := not_le.mpr hn
    rw [hd, if_pos hn]
    simp [hn, hn2]
  · have hle : n ≤ 1000 := not_lt.mp hn
    rw [hd, if_neg hn]
    simp [hn, hle]

/-- Witness for `densityCategory_threshold` at the spec examples
`"SB-001-1500"` and `"SB-001-999"`. -/
theorem densityCategory_threshold_witness :
    densityCategory "SB-001-1500" = some "High Density" ∧
    densityCategory "SB-001-999" = some "Low Density" :=
  ⟨(densityCategory_threshold "SB-001-1500" 1500 (by decide)).1.mpr (by decide),
   (densityCategory_threshold "SB-001-999" 999 (by decide)).2.mpr (by decide)⟩

/-- C5: for every store record whose identifier's final `'-'`-separated
segment is not parseable as an integer, density classification fails for
that row (surfaced as `none`, modelling the uncaught `ValueError`), and
no category at all — in particular no default one — is returned. -/
theorem densityCategory_malformed (s : String)
    (h : parsePyInt (lastSegment s) = none) :
    densityCategory s = none ∧ ∀ c : String, densityCategory s ≠ some c := by
  have hd : densityCategory s = none := by simp [densityCategory, h]
  refine ⟨hd, ?_⟩
  intro c hc
  rw [hd] at hc
  cases hc

/-- Witness for `densityCategory_malformed` at the malformed identifier
`"SB-001-ABC"`. -/
theorem densityCategory_malformed_witness :
    densityCategory "SB-001-ABC" = none :=
  (densityCategory_malformed "SB-001-ABC" (by decide)).1

/-- C2: `filter_data` returns exactly the rows whose value in the column
is a member of the allowed values — membership is set semantics,
insensitive to the order (or multiplicity) of the allowed values — and
when no row matches it returns the empty list rather than failing. -/
theorem filter_data_membership (data : List Row) (column : Row → String)
    (values values2 : List String) (hset : ∀ v, v ∈ values ↔ v ∈ values2) :
    (∀ r, r ∈ filter_data data column values ↔ r ∈ data ∧ column r ∈ values) ∧
    filter_data data column values = filter_data data column values2 ∧
    ((∀ r ∈ data, column r ∉ values) → filter_data data column values = []) := by
  refine ⟨?_, ?_, ?_⟩
  · intro r
    unfold filter_data
    rw [List.mem_filter]
    simp
  · unfold filter_data
    apply List.filter_congr
    intro r _
    exact decide_eq_decide.mpr (hset (column r))
  · intro hnone
    unfold filter_data
    rw [List.filter_eq_nil_iff]
    intro r hr
    simp [hnone r hr]

/-- Witness for `filter_data_membership`: a contained row is kept, the
filter is unchanged under reordering and duplication of the allowed
values, and a selection matching nothing yields the empty list. -/
theorem filter_data_membership_witness :
    ((mkRow "SB-003-0100" "US" "New York" "CO" "04/13/2017 12:29:00 AM") ∈
        filter_data sampleOneCountry (fun r => r.countryCode) ["US", "CA"]) ∧
    filter_data sampleOneCountry (fun r => r.countryCode) ["US", "CA"] =
      filter_data sampleOneCountry (fun r => r.countryCode) ["CA", "US", "US"] ∧
    filter_data sampleOneCountry (fun r => r.countryCode) ["FR"] = [] := by
  have hset : ∀ v : String, v ∈ ["US", "CA"] ↔ v ∈ ["CA", "US", "US"] := by
    intro v
    simp [List.mem_cons]
    tauto
  have h1 := filter_data_membership sampleOneCountry (fun r => r.countryCode)
    ["US", "CA"] ["CA", "US", "US"] hset
  have h2 := filter_data_membership sampleOneCountry (fun r => r.countryCode)
    ["FR"] ["FR"] (fun v => Iff.rfl)
  exact ⟨(h1.1 _).mpr (by decide), h1.2.1, h2.2.2 (by decide)⟩

/-- C7: `filter_data` is idempotent — filtering an already-filtered table
by the same column and allowed values returns the same table. -/
theorem filter_data_idempotent (data : List Row) (column : Row → String)
    (values : List String) :
    filter_data (filter_data data column values) column values
      = filter_data data column values := by
  unfold filter_data
  rw [List.filter_filter]
  apply List.filter_congr
  intro r _
  exact Bool.and_self _

/-- C3 counterexample: on a two-row table whose rows lie in different
countries, with the United States selected, the pivot cells do sum to the
filtered row count, but the year × ownership-type cells sum to the full
table's row count (the source builds that grid from `df_starbucks`, not
from `filtered_data`), so the conjunction claimed for the filtered input
fails. -/
theorem aggregation_sums_counterexample :
    ¬ (pivotCellSum (filtered_data sampleTwoCountries "US" [])
          = (filtered_data sampleTwoCountries "US" []).length
        ∧ yearCellSum sampleTwoCountries
          = (filtered_data sampleTwoCountries "US" []).length) := by
  decide

/-- C3 amended: for every table and selection (with parseable first-seen
timestamps, since the source raises on unparseable ones), the city ×
ownership-type pivot cells sum to the filtered input's row count, while
the year × ownership-type cells — computed by the source over the full
table — sum to the full table's row count. -/
theorem aggregation_sums_amended (df : List Row) (selectedCountry : String)
    (selectedCities : List String)
    (_hyears : ∀ r ∈ df, (extractYear r.firstSeen).isSome = true) :
    pivotCellSum (filtered_data df selectedCountry selectedCities)
        = (filtered_data df selectedCountry selectedCities).length ∧
    yearCellSum df = df.length :=
  ⟨pivotCellSum_eq_length _, yearCellSum_eq_length df⟩

/-- Witness for `aggregation_sums_amended` on the two-country sample. -/
theorem aggregation_sums_amended_witness :
    pivotCellSum (filtered_data sampleTwoCountries "US" [])
        = (filtered_data sampleTwoCountries "US" []).length ∧
    yearCellSum sampleTwoCountries = sampleTwoCountries.length :=
  aggregation_sums_amended sampleTwoCountries "US" [] (by decide)

/-- C4 (code bug): the claim — and the spec's own requirement that the
Top Cities tie order "must be stable" and "deterministic and documented"
— is not delivered by the code.  Line 170 sorts with pandas `sort_values`
under its default `kind='quicksort'`, which the pandas documentation
marks as not stable, and `value_counts` (line 150) documents no tie order
either, so the code guarantees no more of the displayed order than a
count-descending reordering (`isDescendingSortOf`).  Evaluated at the
failing input — two cities, A first-encountered before B, each with one
store — the city counts the embedding computes satisfy that guarantee,
but so does the opposite tie order, and the two differ: the code does not
determine the first-encounter tie-break the claim asserts. -/
theorem top_cities_tie_order_unspecified :
    isDescendingSortOf (value_counts (sampleTiedCities.map (fun r => r.city)))
        ((firstSeenKeys (sampleTiedCities.map (fun r => r.city))).map
          (fun v => (v, countOccur (sampleTiedCities.map (fun r => r.city)) v))) ∧
    isDescendingSortOf [("B", 1), ("A", 1)]
        ((firstSeenKeys (sampleTiedCities.map (fun r => r.city))).map
          (fun v => (v, countOccur (sampleTiedCities.map (fun r => r.city)) v))) ∧
    value_counts (sampleTiedCities.map (fun r => r.city)) ≠ [("B", 1), ("A", 1)] := by
  refine ⟨⟨?_, ?_⟩, ⟨?_, ?_⟩, ?_⟩
  · exact List.Perm.refl _
  · exact List.pairwise_pair.mpr (le_refl 1)
  · exact List.Perm.swap _ _ []
  · exact List.pairwise_pair.mpr (le_refl 1)
  · decide

/-- C6 counterexample: on a two-row table whose rows lie in different
countries, with the United States selected, the pie-chart ownership
counts (from `filtered_data`, source line 181) differ from the bar-chart
ownership counts (from the full `df_starbucks`, source line 189), so the
two displays do not use identical counts. -/
theorem ownership_counts_mismatch :
    ownership_counts_pie sampleTwoCountries "US" []
      ≠ ownership_counts_bar sampleTwoCountries := by
  decide

/-- C6 amended: each display shows a single per-ownership-type row count,
but of different inputs — the pie counts the filtered table and the bar
counts the full table; the two displays agree whenever filtering keeps
the whole table. -/
theorem ownership_counts_amended (df : List Row) (selectedCountry : String)
    (selectedCities : List String) :
    (∀ p ∈ ownership_counts_pie df selectedCountry selectedCities,
        p.2 = countOccur ((filtered_data df selectedCountry selectedCities).map
          (fun r => r.ownershipType)) p.1) ∧
    (∀ p ∈ ownership_counts_bar df,
        p.2 = countOccur (df.map (fun r => r.ownershipType)) p.1) ∧
    (filtered_data df selectedCountry selectedCities = df →
      ownership_counts_pie df selectedCountry selectedCities = ownership_counts_bar df) := by
  refine ⟨?_, ?_, ?_⟩
  · intro p hp
    exact (mem_value_counts hp).2
  · intro p hp
    exact (mem_value_counts hp).2
  · intro h
    unfold ownership_counts_pie ownership_counts_bar
    rw [h]

/-- Witness for `ownership_counts_amended` on the one-country sample,
where filtering by the United States keeps the whole table and the two
displays agree. -/
theorem ownership_counts_amended_witness :
    ((("CO", 1) : String × Nat)).2 =
        countOccur ((filtered_data sampleOneCountry "US" []).map
          (fun r => r.ownershipType)) "CO" ∧
    ownership_counts_pie sampleOneCountry "US" [] = ownership_counts_bar sampleOneCountry := by
  have h := ownership_counts_amended sampleOneCountry "US" []
  exact ⟨h.1 ("CO", 1) (by decide), h.2.2 (by decide)⟩

/-- C8: coordinate coercion maps each raw record to one with its
latitude/longitude parsed to a number, turning unparseable values into a
missing value instead of raising or dropping the record: the row count is
unchanged and every other field of every row is unchanged. -/
theorem coerceCoordinates_preserves (raws : List RawRow) :
    (coerceCoordinateColumns raws).length = raws.length ∧
    ∀ i (h1 : i < raws.length) (h2 : i < (coerceCoordinateColumns raws).length),
      ((coerceCoordinateColumns raws).get ⟨i, h2⟩).lat = to_numeric (raws.get ⟨i, h1⟩).latitude ∧
      ((coerceCoordinateColumns raws).get ⟨i, h2⟩).lon = to_numeric (raws.get ⟨i, h1⟩).longitude ∧
      (to_numeric (raws.get ⟨i, h1⟩).latitude = none →
        ((coerceCoordinateColumns raws).get ⟨i, h2⟩).lat = none) ∧
      ((coerceCoordinateColumns raws).get ⟨i, h2⟩).storeNumber = (raws.get ⟨i, h1⟩).storeNumber ∧
      ((coerceCoordinateColumns raws).get ⟨i, h2⟩).countryCode = (raws.get ⟨i, h1⟩).countryCode ∧
      ((coerceCoordinateColumns raws).get ⟨i, h2⟩).city = (raws.get ⟨i, h1⟩).city ∧
      ((coerceCoordinateColumns raws).get ⟨i, h2⟩).ownershipType
        = (raws.get ⟨i, h1⟩).ownershipType ∧
      ((coerceCoordinateColumns raws).get ⟨i, h2⟩).firstSeen = (raws.get ⟨i, h1⟩).firstSeen ∧
      ((coerceCoordinateColumns raws).get ⟨i, h2⟩).storeName = (raws.get ⟨i, h1⟩).storeName := by
  refine ⟨List.length_map _ _, ?_⟩
  intro i h1 h2
  have hg : (coerceCoordinateColumns raws).get ⟨i, h2⟩
      = coerceCoordinates (raws.get ⟨i, h1⟩) := by
    simp [coerceCoordinateColumns]
  rw [hg]
  exact ⟨rfl, rfl, fun hn => hn, rfl, rfl, rfl, rfl, rfl, rfl⟩

/-- Witness for `coerceCoordinates_preserves`: the record with unparseable
latitude gets a missing latitude, and the record before it keeps its
city. -/
theorem coerceCoordinates_preserves_witness :
    ((coerceCoordinateColumns sampleRawRows).get ⟨1, by decide⟩).lat = none ∧
    ((coerceCoordinateColumns sampleRawRows).get ⟨0, by decide⟩).city = "New York" := by
  have h0 := (coerceCoordinates_preserves sampleRawRows).2 0 (by decide) (by decide)
  have h1 := (coerceCoordinates_preserves sampleRawRows).2 1 (by decide) (by decide)
  exact ⟨h1.2.2.1 (by decide), h0.2.2.2.2.2.1⟩

/-- C9: when the country/city selection matches zero rows, every
aggregation — Top Cities ranking and chart data, ownership-type
distribution, city × ownership-type pivot and year × ownership-type
counts — evaluates on that empty input to the empty result instead of
failing (all embedded aggregations are total). -/
theorem aggregations_on_empty (df : List Row) (selectedCountry : String)
    (selectedCities : List String)
    (h : filtered_data df selectedCountry selectedCities = []) :
    top_cities (filtered_data df selectedCountry selectedCities) = [] ∧
    city_counts_chart (filtered_data df selectedCountry selectedCities) = [] ∧
    ownership_counts_pie df selectedCountry selectedCities = [] ∧
    pivot_table (filtered_data df selectedCountry selectedCities) = [] ∧
    store_counts_by_year (filtered_data df selectedCountry selectedCities) = [] := by
  simp only [ownership_counts_pie]
  rw [h]
  exact ⟨rfl, rfl, rfl, rfl, rfl⟩

/-- Witness for `aggregations_on_empty`: selecting France on the sample
table matches nothing and all aggregations are empty. -/
theorem aggregations_on_empty_witness :
    top_cities (filtered_data sampleTwoCountries "FR" []) = [] ∧
    pivot_table (filtered_data sampleTwoCountries "FR" []) = [] := by
  have h := aggregations_on_empty sampleTwoCountries "FR" [] (by decide)
  exact ⟨h.1, h.2.2.2.1⟩

end Starbucks
